import Mathlib

/-!
Verification development for the SensorArduino repository.

The repository is three straight-line Python scripts over a fixed-schema
sensor CSV:
  * estatistica.py — percentage-normalized descriptive statistics,
  * gerar_figuras.py — a battery of chart renderers,
  * plotagem.py — a standalone multi-series plot.

This file shallowly embeds the data model and the operations the claims
touch.  CSV cells are modelled exactly (a parsed number, an unparsed
string, or a missing value); pandas aggregates are modelled over exact
rationals with missing values as `Option`; the square root used by the
standard-deviation computation is delegated to the numeric library in the
source and is therefore modelled as an arbitrary function parameter.
-/

namespace SensorArduino

/-- One CSV cell as it sits in a pandas column: a numeric value, a raw
string, or a missing value (NaN). -/
inductive Cell where
  | num (q : ℚ)
  | str (s : String)
  | missing
deriving DecidableEq, Repr

/-- Value of a decimal digit string, most significant first. -/
def digitsVal (cs : List Char) : ℕ :=
  cs.foldl (fun a c => 10 * a + (c.toNat - 48)) 0

/-- Split of a character list at its first decimal point: the part
before it, and — when a point is present — the part after it. -/
def splitAtDot : List Char → List Char × Option (List Char)
  | [] => ([], none)
  | c :: cs =>
      if c = '.' then ([], some cs)
      else
        let r := splitAtDot cs
        (c :: r.1, r.2)

/-- Numeric parsing of a string cell, as performed by pandas
to-numeric: surrounding spaces dropped, optional sign, an integer part
and an optional fractional part, all digits.  Strings such as "SIM",
"NAO" or "01/01/2025" fail and become missing. -/
def parseNumber (s : String) : Option ℚ :=
  let cs := ((s.data.dropWhile (· = ' ')).reverse.dropWhile (· = ' ')).reverse
  let sb : ℚ × List Char :=
    match cs with
    | '-' :: rest => (-1, rest)
    | '+' :: rest => (1, rest)
    | _ => (1, cs)
  let body := sb.2
  let ipfp := splitAtDot body
  match ipfp.2 with
  | none =>
      if ipfp.1 ≠ [] ∧ ipfp.1.all (·.isDigit) then some (sb.1 * digitsVal ipfp.1)
      else none
  | some fp =>
      if fp.contains '.' then none
      else if (ipfp.1 ++ fp) ≠ [] ∧ ipfp.1.all (·.isDigit) ∧ fp.all (·.isDigit) then
        some (sb.1 * ((digitsVal ipfp.1 : ℚ) + (digitsVal fp : ℚ) / (10 ^ fp.length)))
      else none

/-- The cleaner: pd.to-numeric with errors coerced
(estatistica.py line 17, plotagem.py line 21).  A numeric cell passes
through, a missing cell stays missing, and a string cell is parsed,
becoming missing when parsing fails.  Total: it never raises. -/
def toNumericCoerce : Cell → Cell
  | .num q => .num q
  | .missing => .missing
  | .str s =>
      match parseNumber s with
      | some q => .num q
      | none => .missing

/-- The numeric content of a coerced cell (missing = NaN = none). -/
def cellToNum (c : Cell) : Option ℚ :=
  match toNumericCoerce c with
  | .num q => some q
  | _ => none

/-- The non-missing values of a column, in order — the values every
pandas aggregate here operates on (skipna semantics). -/
def validVals (col : List (Option ℚ)) : List ℚ :=
  col.filterMap id

/-- Mean ignoring missing values; NaN (none) on an all-missing column. -/
def pmean (col : List (Option ℚ)) : Option ℚ :=
  let xs := validVals col
  if xs.isEmpty then none else some (xs.sum / (xs.length : ℚ))

/-- Minimum of a nonempty list of rationals. -/
def listMin : List ℚ → Option ℚ
  | [] => none
  | x :: xs => some (xs.foldl min x)

/-- Maximum of a nonempty list of rationals. -/
def listMax : List ℚ → Option ℚ
  | [] => none
  | x :: xs => some (xs.foldl max x)

/-- Column minimum ignoring missing values. -/
def pmin (col : List (Option ℚ)) : Option ℚ :=
  listMin (validVals col)

/-- Column maximum ignoring missing values. -/
def pmax (col : List (Option ℚ)) : Option ℚ :=
  listMax (validVals col)

/-- Sample variance (ddof = 1, the pandas default) ignoring missing
values; NaN when fewer than two values are present. -/
def pvar (col : List (Option ℚ)) : Option ℚ :=
  let xs := validVals col
  if 2 ≤ xs.length then
    let n : ℚ := xs.length
    let m := xs.sum / n
    some (((xs.map fun x => (x - m) ^ 2).sum) / (n - 1))
  else none

/-- Median of an already sorted list: middle element, or the average of
the two middle elements. -/
def medianSorted (s : List ℚ) : Option ℚ :=
  let n := s.length
  if n = 0 then none
  else if n % 2 = 1 then s.get? (n / 2)
  else
    match s.get? (n / 2 - 1), s.get? (n / 2) with
    | some a, some b => some ((a + b) / 2)
    | _, _ => none

/-- Column median ignoring missing values (pandas median). -/
def pmedian (col : List (Option ℚ)) : Option ℚ :=
  medianSorted ((validVals col).insertionSort (· ≤ ·))

/-- NaN-propagating subtraction, for intervalo = max - min
(estatistica.py line 29). -/
def osub : Option ℚ → Option ℚ → Option ℚ
  | some a, some b => some (a - b)
  | _, _ => none

/-- Round half to even to the nearest integer — the rounding used both by
numpy (DataFrame.round) and by the Python built-in round. -/
def roundHalfEven (x : ℚ) : ℤ :=
  let f := ⌊x⌋
  let r := x - f
  if r < 1 / 2 then f
  else if 1 / 2 < r then f + 1
  else if f % 2 = 0 then f else f + 1

/-- Rounding to two decimal places (DataFrame.round 2,
estatistica.py line 43). -/
def round2 (x : ℚ) : ℚ :=
  (roundHalfEven (100 * x) : ℚ) / 100

/-! ## The table model

A CSV in memory is a list of named columns.  Column lookup takes the
first column with the given name, matching a pandas frame where column
names are unique. -/

/-- A loaded CSV: named columns of cells. -/
abbrev Table := List (String × List Cell)

/-- The column names of a table (dados.columns). -/
def colNames (t : Table) : List String :=
  t.map Prod.fst

/-- Lookup of a column by name. -/
def getCol (t : Table) (name : String) : Option (List Cell) :=
  (t.find? (fun p => p.1 == name)).map Prod.snd

/-- One cell of a table, by column name and row index. -/
def getCell (t : Table) (name : String) (i : ℕ) : Option Cell :=
  (getCol t name).bind (fun col => col.get? i)

/-- The numeric view of one column of the table after coercion, as
df-numeric of estatistica.py line 17 exposes it per variable. -/
def colNum (t : Table) (name : String) : List (Option ℚ) :=
  ((getCol t name).getD []).map cellToNum

/-! ## estatistica.py — the statistics computer -/

/-- The fixed list of variables of interest (estatistica.py line 20). -/
def variaveis : List String := ["Temp", "UmidadeAr", "USolo"]

/-- The per-variable output record of estatistica.py lines 34-40:
Intervalo (%), Desvio Padrão (%), Variância (%), Mediana (valor),
Mediana (%). -/
structure StatsRow where
  intervaloPct : Option ℚ
  desvioPct : Option ℚ
  varianciaPct : Option ℚ
  medianaValor : Option ℚ
  medianaPct : Option ℚ
deriving DecidableEq, Repr

/-- The percentage expression (x / media) * 100 if media else None of
estatistica.py lines 35-39.  When media is NaN the Python guard passes
(NaN is truthy) and the division yields NaN; when media is exactly zero
the guard fails and None is stored; otherwise the quotient is taken,
with NaN propagating from x. -/
def pctOf (x media : Option ℚ) : Option ℚ :=
  match media with
  | none => none
  | some m => if m = 0 then none else x.map (fun xv => xv / m * 100)

/-- The loop body of estatistica.py lines 25-40 for one variable,
before the final DataFrame rounding.  The standard deviation is the
library square root of the sample variance; the square-root computation
itself is delegated to the numeric library and is modelled by the
function parameter f. -/
def rawStatsRow (f : ℚ → ℚ) (col : List (Option ℚ)) : StatsRow :=
  let media := pmean col
  let min_val := pmin col
  let max_val := pmax col
  let intervalo := osub max_val min_val
  let desvio := (pvar col).map f
  let variancia := pvar col
  let mediana := pmedian col
  { intervaloPct := pctOf intervalo media
  , desvioPct := pctOf desvio media
  , varianciaPct := pctOf variancia media
  , medianaValor := mediana
  , medianaPct := pctOf mediana media }

/-- DataFrame.round 2 applied to one output row (estatistica.py
line 43); NaN cells stay NaN. -/
def roundRow (r : StatsRow) : StatsRow :=
  { intervaloPct := r.intervaloPct.map round2
  , desvioPct := r.desvioPct.map round2
  , varianciaPct := r.varianciaPct.map round2
  , medianaValor := r.medianaValor.map round2
  , medianaPct := r.medianaPct.map round2 }

/-- The reported statistics for one raw column: coercion to numeric,
the loop body, then rounding. -/
def statsFor (f : ℚ → ℚ) (rawCol : List Cell) : StatsRow :=
  roundRow (rawStatsRow f (rawCol.map cellToNum))

/-- The whole output table df-resultado of estatistica.py line 43,
indexed by variable name. -/
def estatisticasPercentuais (f : ℚ → ℚ) (t : Table) : List (String × StatsRow) :=
  variaveis.map (fun v => (v, statsFor f ((getCol t v).getD [])))

/-! ## gerar_figuras.py — quantiles and outlier classification -/

/-- Linear-interpolation quantile of a sorted nonempty list (the pandas
default interpolation): position h = (n - 1) * q, the element at the
floor of h blended with the next one by the fractional part. -/
def quantileSorted (s : List ℚ) (q : ℚ) : Option ℚ :=
  match s with
  | [] => none
  | _ :: _ =>
    let n := s.length
    let h : ℚ := ((n - 1 : ℕ) : ℚ) * q
    let j : ℕ := (⌊h⌋).toNat
    let frac : ℚ := h - (j : ℚ)
    match s.get? j, s.get? (j + 1) with
    | some a, some b => some (a + frac * (b - a))
    | some a, none => some a
    | _, _ => none

/-- Series.quantile ignoring missing values (gerar_figuras.py
lines 107-108). -/
def pquantile (col : List (Option ℚ)) (q : ℚ) : Option ℚ :=
  quantileSorted ((validVals col).insertionSort (· ≤ ·)) q

/-- The per-point classification of plot_outliers (gerar_figuras.py
lines 107-116): Q1 and Q3 are the quartiles of the same column,
IQR = Q3 - Q1, and a point is labelled Outlier exactly when it falls
below Q1 - 1.5 IQR or above Q3 + 1.5 IQR.  A missing value compares
false on both sides in Python and is labelled Normal, as is every point
when the quartiles are themselves NaN. -/
def classifyOutliers (col : List (Option ℚ)) : List String :=
  match pquantile col (1 / 4), pquantile col (3 / 4) with
  | some q1, some q3 =>
      let iqr := q3 - q1
      let lo := q1 - 3 / 2 * iqr
      let hi := q3 + 3 / 2 * iqr
      col.map (fun c =>
        match c with
        | some v => if v < lo ∨ v > hi then "Outlier" else "Normal"
        | none => "Normal")
  | _, _ => col.map (fun _ => "Normal")

/-! ## gerar_figuras.py — the script flow

The script loads the CSV, derives the Data_Hora timestamp column,
checks the required columns (exiting on the first missing one), creates
the output directory and runs the five renderers in a fixed order, each
wrapped in its own try/except; finally it unconditionally prints a
completion banner and the fixed list of output file names.

Rendering itself (matplotlib, seaborn, sklearn calls) is external
effectful code; each renderer body is therefore modelled as an
arbitrary function from the table it receives to the image files it
managed to write plus an optional raised exception message. -/

/-- The five renderers, in the order the script calls them
(gerar_figuras.py lines 168-172). -/
inductive RendererId where
  | temporais
  | boxplot
  | correlacao
  | outliers
  | pca
deriving DecidableEq, Repr

/-- The fixed call sequence of gerar_figuras.py lines 168-172. -/
def rendererSeq : List RendererId :=
  [.temporais, .boxplot, .correlacao, .outliers, .pca]

/-- The error prefix each renderer prints from its except clause
(gerar_figuras.py lines 69, 84, 99, 131, 162). -/
def errLabel : RendererId → String
  | .temporais => "Erro ao gerar gráficos temporais: "
  | .boxplot => "Erro ao gerar boxplot: "
  | .correlacao => "Erro ao gerar matriz de correlação: "
  | .outliers => "Erro ao gerar gráfico de outliers: "
  | .pca => "Erro ao gerar PCA: "

/-- The required columns checked before any rendering
(gerar_figuras.py line 26). -/
def required_columns : List String := ["UmidadeAr", "Temp", "USolo"]

/-- The first required column absent from the loaded table, in check
order (gerar_figuras.py lines 27-30). -/
def firstMissing (cols : List String) : Option String :=
  required_columns.find? (fun c => !(cols.contains c))

/-- The error line printed for a missing required column
(gerar_figuras.py line 29). -/
def colErrMsg (c : String) : String :=
  "Erro: Coluna \x27" ++ c ++ "\x27 não encontrada no arquivo CSV."

/-- The unconditional completion prints of gerar_figuras.py
lines 174-183: a banner and the fixed list of eight image file names. -/
def finalPrints : List String :=
  [ "Processamento concluído. Verifique a pasta \x27graficos/\x27"
  , "Arquivos gerados:"
  , "- temporal_combinado.png (gráfico com 3 subplots)"
  , "- temporal_umidadear.png (umidade do ar individual)"
  , "- temporal_temp.png (temperatura individual)"
  , "- temporal_usolo.png (umidade do solo individual)"
  , "- boxplot_variaveis.png"
  , "- matriz_correlacao.png"
  , "- outliers_umidade.png"
  , "- pca_ambiental.png" ]

/-- Combination of one Data cell and one Hora cell into the string fed
to the datetime parsing (gerar_figuras.py line 20). -/
def combineDH : Cell → Cell → Cell
  | .str d, .str h => .str (d ++ " " ++ h)
  | _, _ => .missing

/-- Column assignment dados[name] = col: replace the column when the
name exists, append it otherwise. -/
def setCol (t : Table) (name : String) (col : List Cell) : Table :=
  if (t.find? (fun p => p.1 == name)).isSome then
    t.map (fun p => if p.1 == name then (p.1, col) else p)
  else t ++ [(name, col)]

/-- The derived Data_Hora column (gerar_figuras.py line 20). -/
def dataHoraCol (t : Table) : List Cell :=
  match getCol t "Data", getCol t "Hora" with
  | some ds, some hs => List.zipWith combineDH ds hs
  | _, _ => []

/-- The dados object every renderer receives (gerar_figuras.py
lines 19-20 and 168-172): the loaded table with the derived Data_Hora
column set.  No numeric coercion is applied anywhere in this script. -/
def dadosFor (t : Table) : Table :=
  setCol t "Data_Hora" (dataHoraCol t)

/-- The cleaned (numeric-coerced) view of a table.  Modelled from the
spec wording — the cleaned table each renderer supposedly consumes —
for comparison with the table the source actually passes; this script
never computes it. -/
def cleanTable (t : Table) : Table :=
  t.map (fun p => (p.1, p.2.map toNumericCoerce))

/-- The observable outcome of a run of gerar_figuras.py: the lines
printed, the image files written, and the renderer invocations that
happened, each with the table it was handed. -/
structure RunState where
  messages : List String
  files : List String
  invoked : List (RendererId × Table)
deriving DecidableEq, Repr

/-- An assignment of behaviour to the renderer bodies: given the table,
the files the try-block wrote before finishing or failing, and the
exception message when it raised. -/
abbrev RendererBody := RendererId → Table → List String × Option String

/-- One renderer call with its try/except wrapper (gerar_figuras.py
lines 33-162): the body runs, an exception is caught and printed with
the renderer's label, and control always returns to the caller. -/
def runRenderer (body : RendererBody) (df : Table) (st : RunState) (r : RendererId) : RunState :=
  let out := body r df
  { messages := st.messages ++ (match out.2 with | none => [] | some e => [errLabel r ++ e])
  , files := st.files ++ out.1
  , invoked := st.invoked ++ [(r, df)] }

/-- The script flow of gerar_figuras.py after the imports: load and
derive the timestamp (a missing Data or Hora column makes the load
except clause print and exit), check the required columns (printing and
exiting on the first missing one, before the output directory is even
created), then run the five renderers in order and print the final
banner and file list.  File reading and date parsing failures other
than a missing Data or Hora column are outside the model. -/
def runGerarFiguras (t : Table) (body : RendererBody) : RunState :=
  if "Data" ∈ colNames t ∧ "Hora" ∈ colNames t then
    match firstMissing (colNames t) with
    | some c => ⟨[colErrMsg c], [], []⟩
    | none =>
        let st := rendererSeq.foldl (runRenderer body (dadosFor t)) ⟨[], [], []⟩
        ⟨st.messages ++ finalPrints, st.files, st.invoked⟩
  else ⟨["Erro ao carregar dados: coluna de data ou hora ausente"], [], []⟩

/-- A behaviour under which every renderer raises and writes nothing. -/
def allFailBody : RendererBody :=
  fun _ _ => ([], some "falha")

/-! ## Concrete inputs used by the closed theorems -/

/-- The identity, standing in for the library square root on inputs
whose variance value is irrelevant or chosen to match. -/
def idSqrt : ℚ → ℚ := fun q => q

/-- The two-row CSV of the end-to-end scenario: Temp 20 and 30,
UmidadeAr 50 and 70, USolo 30 and 50. -/
def csvC7 : Table :=
  [ ("Data", [.str "01/01/2025", .str "01/01/2025"])
  , ("Hora", [.str "00:00", .str "01:00"])
  , ("Temp", [.num 20, .num 30])
  , ("UmidadeAr", [.num 50, .num 70])
  , ("USolo", [.num 30, .num 50]) ]

/-- A well-formed table whose UmidadeAr column carries a non-numeric
cell, exhibiting what the renderers actually receive. -/
def exTable : Table :=
  [ ("Data", [.str "01/01/2025"])
  , ("Hora", [.str "00:00"])
  , ("Temp", [.num 20])
  , ("UmidadeAr", [.str "SIM"])
  , ("USolo", [.num 30]) ]

/-- A table whose USolo column is [10, 20]: mean 15, range 10,
variance 50. -/
def tblC1W : Table :=
  [ ("Temp", [.num 1, .num 2])
  , ("UmidadeAr", [.num 3, .num 4])
  , ("USolo", [.num 10, .num 20]) ]

/-- A table whose Temp column is [5, -5]: mean exactly zero. -/
def tblC2W : Table :=
  [ ("Temp", [.num 5, .num (-5)])
  , ("UmidadeAr", [.num 1, .num 2])
  , ("USolo", [.num 1, .num 2]) ]

/-- A table whose UmidadeAr column is [2, 4, 9]: median 4. -/
def tblC9W : Table :=
  [ ("Temp", [.num 1, .num 1, .num 1])
  , ("UmidadeAr", [.num 2, .num 4, .num 9])
  , ("USolo", [.num 0, .num 0, .num 0]) ]

/-- A complete well-formed input table. -/
def tblFull : Table :=
  [ ("Data", [.str "01/01/2025", .str "01/01/2025"])
  , ("Hora", [.str "00:00", .str "01:00"])
  , ("UmidadeAr", [.num 50, .num 70])
  , ("Temp", [.num 20, .num 30])
  , ("USolo", [.num 30, .num 50]) ]

/-- The complete table with the USolo column removed. -/
def tblNoUSolo : Table :=
  [ ("Data", [.str "01/01/2025", .str "01/01/2025"])
  , ("Hora", [.str "00:00", .str "01:00"])
  , ("UmidadeAr", [.num 50, .num 70])
  , ("Temp", [.num 20, .num 30]) ]

/-- A behaviour under which only the boxplot renderer raises. -/
def boxFailBody : RendererBody :=
  fun r _ => if r = .boxplot then ([], some "falha no boxplot") else (["ok.png"], none)

/-- An air-humidity column with one far point: sorted [10, 11, 12, 13,
100], Q1 = 11, Q3 = 13, IQR = 2, bounds 8 and 16. -/
def colC4W : List (Option ℚ) :=
  [some 10, some 12, some 11, some 13, some 100]

/-! ## Helper lemmas -/

theorem statsFor_intervaloPct (f : ℚ → ℚ) (col : List Cell) :
    (statsFor f col).intervaloPct =
      (pctOf (osub (pmax (col.map cellToNum)) (pmin (col.map cellToNum)))
        (pmean (col.map cellToNum))).map round2 := rfl

theorem statsFor_desvioPct (f : ℚ → ℚ) (col : List Cell) :
    (statsFor f col).desvioPct =
      (pctOf ((pvar (col.map cellToNum)).map f) (pmean (col.map cellToNum))).map round2 := rfl

theorem statsFor_varianciaPct (f : ℚ → ℚ) (col : List Cell) :
    (statsFor f col).varianciaPct =
      (pctOf (pvar (col.map cellToNum)) (pmean (col.map cellToNum))).map round2 := rfl

theorem statsFor_medianaValor (f : ℚ → ℚ) (col : List Cell) :
    (statsFor f col).medianaValor = (pmedian (col.map cellToNum)).map round2 := rfl

theorem statsFor_medianaPct (f : ℚ → ℚ) (col : List Cell) :
    (statsFor f col).medianaPct =
      (pctOf (pmedian (col.map cellToNum)) (pmean (col.map cellToNum))).map round2 := rfl

theorem colNum_eq_map (t : Table) (v : String) :
    colNum t v = ((getCol t v).getD []).map cellToNum := rfl

theorem validVals_ne_nil_of_pmean (col : List (Option ℚ)) (m : ℚ)
    (h : pmean col = some m) : validVals col ≠ [] := by
  intro hnil
  simp [pmean, hnil] at h

theorem pmin_isSome_of_ne_nil (col : List (Option ℚ)) (h : validVals col ≠ []) :
    ∃ a, pmin col = some a := by
  rcases hval : validVals col with _ | ⟨x, xs⟩
  · exact absurd hval h
  · exact ⟨xs.foldl min x, by simp [pmin, hval, listMin]⟩

theorem pmax_isSome_of_ne_nil (col : List (Option ℚ)) (h : validVals col ≠ []) :
    ∃ a, pmax col = some a := by
  rcases hval : validVals col with _ | ⟨x, xs⟩
  · exact absurd hval h
  · exact ⟨xs.foldl max x, by simp [pmax, hval, listMax]⟩

theorem medianSorted_isSome (s : List ℚ) (h : s ≠ []) : ∃ a, medianSorted s = some a := by
  have hpos : 0 < s.length := List.length_pos.mpr h
  have hne : s.length ≠ 0 := Nat.pos_iff_ne_zero.mp hpos
  have hlt : s.length / 2 < s.length := Nat.div_lt_self hpos (by norm_num)
  by_cases hodd : s.length % 2 = 1
  · cases hg : s.get? (s.length / 2) with
    | none => exact absurd (List.get?_eq_none.mp hg) (by omega)
    | some a =>
      rw [List.get?_eq_getElem?] at hg
      exact ⟨a, by simp [medianSorted, hne, hodd, hg]⟩
  · have h2 : 2 ≤ s.length := by omega
    have hlt1 : s.length / 2 - 1 < s.length := lt_of_le_of_lt (Nat.sub_le _ 1) hlt
    cases hg1 : s.get? (s.length / 2 - 1) with
    | none => exact absurd (List.get?_eq_none.mp hg1) (by omega)
    | some a =>
      cases hg2 : s.get? (s.length / 2) with
      | none => exact absurd (List.get?_eq_none.mp hg2) (by omega)
      | some b =>
        rw [List.get?_eq_getElem?] at hg1 hg2
        exact ⟨(a + b) / 2, by simp [medianSorted, hne, hodd, hg1, hg2]⟩

theorem pmedian_isSome_of_ne_nil (col : List (Option ℚ)) (h : validVals col ≠ []) :
    ∃ a, pmedian col = some a := by
  unfold pmedian
  refine medianSorted_isSome _ ?_
  intro hnil
  have hlen : ((validVals col).insertionSort (· ≤ ·)).length = (validVals col).length :=
    List.length_insertionSort _ _
  rw [hnil] at hlen
  exact h (List.length_eq_zero.mp hlen.symm)

theorem foldl_runRenderer_invoked (body : RendererBody) (df : Table)
    (rs : List RendererId) (st : RunState) :
    (rs.foldl (runRenderer body df) st).invoked = st.invoked ++ rs.map (fun r => (r, df)) := by
  induction rs generalizing st with
  | nil => simp
  | cons r rest ih =>
    rw [List.foldl_cons, ih]
    simp [runRenderer]

theorem foldl_runRenderer_messages (body : RendererBody) (df : Table)
    (rs : List RendererId) (st : RunState) :
    (rs.foldl (runRenderer body df) st).messages =
      st.messages ++ (rs.map (fun r =>
        match (body r df).2 with | none => [] | some e => [errLabel r ++ e])).flatten := by
  induction rs generalizing st with
  | nil => simp
  | cons r rest ih =>
    rw [List.foldl_cons, ih]
    simp [runRenderer]

theorem foldl_runRenderer_files (body : RendererBody) (df : Table)
    (rs : List RendererId) (st : RunState) :
    (rs.foldl (runRenderer body df) st).files =
      st.files ++ (rs.map (fun r => (body r df).1)).flatten := by
  induction rs generalizing st with
  | nil => simp
  | cons r rest ih =>
    rw [List.foldl_cons, ih]
    simp [runRenderer]

theorem firstMissing_eq_none (cols : List String)
    (hreq : ∀ c ∈ required_columns, c ∈ cols) : firstMissing cols = none := by
  rw [firstMissing, List.find?_eq_none]
  intro c hc
  simpa using hreq c hc

theorem runGerarFiguras_ok (t : Table) (body : RendererBody)
    (hd : "Data" ∈ colNames t) (hh : "Hora" ∈ colNames t)
    (hreq : ∀ c ∈ required_columns, c ∈ colNames t) :
    runGerarFiguras t body =
      let st := rendererSeq.foldl (runRenderer body (dadosFor t)) ⟨[], [], []⟩
      ⟨st.messages ++ finalPrints, st.files, st.invoked⟩ := by
  rw [runGerarFiguras, if_pos (And.intro hd hh), firstMissing_eq_none _ hreq]

theorem getCol_cons_eq (a : String) (b : List Cell) (rest : Table) (nm : String)
    (h : a = nm) : getCol ((a, b) :: rest) nm = some b := by
  simp [getCol, List.find?_cons, h]

theorem getCol_cons_ne (a : String) (b : List Cell) (rest : Table) (nm : String)
    (h : ¬a = nm) : getCol ((a, b) :: rest) nm = getCol rest nm := by
  simp [getCol, List.find?_cons, h]

theorem getCol_map_replace (nm nm' : String) (col : List Cell) (h : nm' ≠ nm) :
    ∀ t : Table,
      getCol (t.map (fun p => if p.1 == nm then (p.1, col) else p)) nm' = getCol t nm'
  | [] => rfl
  | (a, b) :: rest => by
    have ih := getCol_map_replace nm nm' col h rest
    by_cases hq : a = nm
    · have hane : ¬a = nm' := fun hc => h (hc.symm.trans hq)
      rw [List.map_cons]
      have hred : (if ((a, b) : String × List Cell).1 == nm
            then (((a, b) : String × List Cell).1, col) else (a, b)) = (a, col) := by
        simp [hq]
      rw [hred, getCol_cons_ne a col _ nm' hane, getCol_cons_ne a b rest nm' hane, ih]
    · rw [List.map_cons]
      have hred : (if ((a, b) : String × List Cell).1 == nm
            then (((a, b) : String × List Cell).1, col) else (a, b)) = (a, b) := by
        simp [hq]
      rw [hred]
      by_cases hp' : a = nm'
      · rw [getCol_cons_eq a b _ nm' hp', getCol_cons_eq a b rest nm' hp']
      · rw [getCol_cons_ne a b _ nm' hp', getCol_cons_ne a b rest nm' hp', ih]

theorem getCol_setCol_ne (t : Table) (nm nm' : String) (col : List Cell)
    (h : nm' ≠ nm) : getCol (setCol t nm col) nm' = getCol t nm' := by
  rw [setCol]
  by_cases hex : (t.find? (fun p => p.1 == nm)).isSome
  · rw [if_pos hex]
    exact getCol_map_replace nm nm' col h t
  · rw [if_neg hex, getCol, getCol, List.find?_append]
    cases hfind : t.find? (fun p => p.1 == nm') with
    | some a => simp [hfind]
    | none =>
      have hlast : List.find? (fun p => p.1 == nm') [(nm, col)] = none := by
        have hne : ¬nm = nm' := fun hc => h hc.symm
        simp [List.find?_cons, hne]
      simp [hfind, hlast]

theorem getCell_dadosFor (t : Table) (name : String) (i : ℕ) (h : name ≠ "Data_Hora") :
    getCell (dadosFor t) name i = getCell t name i := by
  rw [getCell, getCell, dadosFor, getCol_setCol_ne t _ _ _ h]

/-! ## Evaluation facts about the concrete inputs -/

theorem pmean_csvC7_Temp : pmean (colNum csvC7 "Temp") = some 25 := by
  rw [pmean, show validVals (colNum csvC7 "Temp") = [20, 30] from rfl]
  norm_num

theorem pmin_csvC7_Temp : pmin (colNum csvC7 "Temp") = some 20 := by
  rw [show pmin (colNum csvC7 "Temp") = some (min 20 30) from rfl]
  norm_num [min_def]

theorem pmax_csvC7_Temp : pmax (colNum csvC7 "Temp") = some 30 := by
  rw [show pmax (colNum csvC7 "Temp") = some (max 20 30) from rfl]
  norm_num [max_def]

theorem pmedian_csvC7_Temp : pmedian (colNum csvC7 "Temp") = some 25 := by
  rw [pmedian, show validVals (colNum csvC7 "Temp") = [20, 30] from rfl]
  have hs : ([20, 30] : List ℚ).insertionSort (· ≤ ·) = [20, 30] := by
    norm_num [List.insertionSort, List.orderedInsert]
  rw [hs, show medianSorted [20, 30] = some ((20 + 30) / 2) from rfl]
  norm_num

theorem pmean_tblC1W_USolo : pmean (colNum tblC1W "USolo") = some 15 := by
  rw [pmean, show validVals (colNum tblC1W "USolo") = [10, 20] from rfl]
  norm_num

theorem pmean_tblC2W_Temp : pmean (colNum tblC2W "Temp") = some 0 := by
  rw [pmean, show validVals (colNum tblC2W "Temp") = [5, -5] from rfl]
  norm_num

theorem sort_colC4W : (validVals colC4W).insertionSort (· ≤ ·) = [10, 11, 12, 13, 100] := by
  rw [show validVals colC4W = [10, 12, 11, 13, 100] from rfl]
  norm_num [List.insertionSort, List.orderedInsert]

theorem q1_colC4W : pquantile colC4W (1 / 4) = some 11 := by
  rw [pquantile, sort_colC4W]
  norm_num [quantileSorted, List.get?]

theorem q3_colC4W : pquantile colC4W (3 / 4) = some 13 := by
  rw [pquantile, sort_colC4W]
  norm_num [quantileSorted, List.get?, show (3 : ℤ).toNat = 3 from rfl]

/-! ## The claims -/

/-- Claim C1: for every variable in the fixed list Temp, UmidadeAr, USolo
whose mean over the non-missing values is defined and non-zero, the
statistics computer reports range-percent, stddev-percent,
variance-percent and median-percent as the corresponding aggregate
divided by the mean, times 100, rounded to 2 decimals; all aggregates
ignore missing values.  The standard deviation is the library square
root of the sample variance, modelled by the arbitrary function f. -/
theorem estatistica_pct_of_mean (f : ℚ → ℚ) (t : Table) (v : String) (m : ℚ)
    (hv : v ∈ variaveis) (hm : pmean (colNum t v) = some m) (h0 : m ≠ 0) :
    ∃ row, (v, row) ∈ estatisticasPercentuais f t ∧
      (∃ mx mn, pmax (colNum t v) = some mx ∧ pmin (colNum t v) = some mn ∧
        row.intervaloPct = some (round2 ((mx - mn) / m * 100))) ∧
      row.desvioPct = (pvar (colNum t v)).map (fun s => round2 (f s / m * 100)) ∧
      row.varianciaPct = (pvar (colNum t v)).map (fun s => round2 (s / m * 100)) ∧
      ∃ md, pmedian (colNum t v) = some md ∧
        row.medianaPct = some (round2 (md / m * 100)) := by
  have hne := validVals_ne_nil_of_pmean (colNum t v) m hm
  obtain ⟨mx, hmx⟩ := pmax_isSome_of_ne_nil _ hne
  obtain ⟨mn, hmn⟩ := pmin_isSome_of_ne_nil _ hne
  obtain ⟨md, hmd⟩ := pmedian_isSome_of_ne_nil _ hne
  refine ⟨statsFor f ((getCol t v).getD []), List.mem_map.mpr ⟨v, hv, rfl⟩,
    ⟨mx, mn, hmx, hmn, ?_⟩, ?_, ?_, ⟨md, hmd, ?_⟩⟩
  · rw [statsFor_intervaloPct, ← colNum_eq_map, hmx, hmn, hm]
    simp [pctOf, osub, h0]
  · rw [statsFor_desvioPct, ← colNum_eq_map, hm]
    cases pvar (colNum t v) <;> simp [pctOf, h0]
  · rw [statsFor_varianciaPct, ← colNum_eq_map, hm]
    cases pvar (colNum t v) <;> simp [pctOf, h0]
  · rw [statsFor_medianaPct, ← colNum_eq_map, hmd, hm]
    simp [pctOf, h0]

/-- Witness for C1: on the table whose USolo column is [10, 20] the mean
is 15, satisfying the hypotheses, and the reported percentages follow
the formulas. -/
theorem estatistica_pct_of_mean_witness :
    ∃ row, ("USolo", row) ∈ estatisticasPercentuais idSqrt tblC1W ∧
      (∃ mx mn, pmax (colNum tblC1W "USolo") = some mx ∧
        pmin (colNum tblC1W "USolo") = some mn ∧
        row.intervaloPct = some (round2 ((mx - mn) / 15 * 100))) ∧
      row.desvioPct = (pvar (colNum tblC1W "USolo")).map (fun s => round2 (idSqrt s / 15 * 100)) ∧
      row.varianciaPct = (pvar (colNum tblC1W "USolo")).map (fun s => round2 (s / 15 * 100)) ∧
      ∃ md, pmedian (colNum tblC1W "USolo") = some md ∧
        row.medianaPct = some (round2 (md / 15 * 100)) :=
  estatistica_pct_of_mean idSqrt tblC1W "USolo" 15 (by decide) pmean_tblC1W_USolo (by norm_num)

/-- Claim C2: for any variable whose mean over the non-missing values is
zero or undefined, all four percentage metrics are reported as missing;
the computation is total, so no division error and no infinity can be
produced. -/
theorem estatistica_zero_or_missing_mean (f : ℚ → ℚ) (t : Table) (v : String)
    (hv : v ∈ variaveis)
    (hm : pmean (colNum t v) = none ∨ pmean (colNum t v) = some 0) :
    ∃ row, (v, row) ∈ estatisticasPercentuais f t ∧
      row.intervaloPct = none ∧ row.desvioPct = none ∧
      row.varianciaPct = none ∧ row.medianaPct = none := by
  have hp : ∀ x, pctOf x (pmean (colNum t v)) = none := by
    intro x
    rcases hm with hm | hm <;> simp [pctOf, hm]
  refine ⟨statsFor f ((getCol t v).getD []), List.mem_map.mpr ⟨v, hv, rfl⟩, ?_, ?_, ?_, ?_⟩
  · rw [statsFor_intervaloPct, ← colNum_eq_map, hp]
    rfl
  · rw [statsFor_desvioPct, ← colNum_eq_map, hp]
    rfl
  · rw [statsFor_varianciaPct, ← colNum_eq_map, hp]
    rfl
  · rw [statsFor_medianaPct, ← colNum_eq_map, hp]
    rfl

/-- Witness for C2: the Temp column [5, -5] has mean exactly zero, and
all four percentage metrics come out missing. -/
theorem estatistica_zero_or_missing_mean_witness :
    ∃ row, ("Temp", row) ∈ estatisticasPercentuais idSqrt tblC2W ∧
      row.intervaloPct = none ∧ row.desvioPct = none ∧
      row.varianciaPct = none ∧ row.medianaPct = none :=
  estatistica_zero_or_missing_mean idSqrt tblC2W "Temp" (by decide) (Or.inr pmean_tblC2W_Temp)

/-- Claim C9 (implicit): the statistics output always carries the median
value column as the rounded median of the non-missing values,
unconditionally — the guard on the mean never touches it. -/
theorem mediana_valor_unconditional (f : ℚ → ℚ) (t : Table) (v : String)
    (hv : v ∈ variaveis) :
    ∃ row, (v, row) ∈ estatisticasPercentuais f t ∧
      row.medianaValor = (pmedian (colNum t v)).map round2 :=
  ⟨statsFor f ((getCol t v).getD []), List.mem_map.mpr ⟨v, hv, rfl⟩, rfl⟩

/-- Witness for C9: on the table whose UmidadeAr column is [2, 4, 9]
the reported median value is the rounded median. -/
theorem mediana_valor_unconditional_witness :
    ∃ row, ("UmidadeAr", row) ∈ estatisticasPercentuais idSqrt tblC9W ∧
      row.medianaValor = (pmedian (colNum tblC9W "UmidadeAr")).map round2 :=
  mediana_valor_unconditional idSqrt tblC9W "UmidadeAr" (by decide)

/-- Claim C7: on the two-row CSV of the end-to-end scenario the
statistics computer obtains, for Temp, mean 25, min 20, max 30 and
range 10, and reports range-percent 40, median 25 and
median-percent 100. -/
theorem two_row_scenario (f : ℚ → ℚ) :
    pmean (colNum csvC7 "Temp") = some 25 ∧
    pmin (colNum csvC7 "Temp") = some 20 ∧
    pmax (colNum csvC7 "Temp") = some 30 ∧
    osub (pmax (colNum csvC7 "Temp")) (pmin (colNum csvC7 "Temp")) = some 10 ∧
    ∃ row, ("Temp", row) ∈ estatisticasPercentuais f csvC7 ∧
      row.intervaloPct = some 40 ∧ row.medianaValor = some 25 ∧
      row.medianaPct = some 100 := by
  refine ⟨pmean_csvC7_Temp, pmin_csvC7_Temp, pmax_csvC7_Temp, ?_,
    statsFor f ((getCol csvC7 "Temp").getD []),
    List.mem_map.mpr ⟨"Temp", by decide, rfl⟩, ?_, ?_, ?_⟩
  · rw [pmin_csvC7_Temp, pmax_csvC7_Temp]
    norm_num [osub]
  · rw [statsFor_intervaloPct, ← colNum_eq_map,
      pmean_csvC7_Temp, pmin_csvC7_Temp, pmax_csvC7_Temp]
    norm_num [pctOf, osub, round2, roundHalfEven]
  · rw [statsFor_medianaValor, ← colNum_eq_map, pmedian_csvC7_Temp]
    norm_num [round2, roundHalfEven]
  · rw [statsFor_medianaPct, ← colNum_eq_map, pmedian_csvC7_Temp, pmean_csvC7_Temp]
    norm_num [pctOf, round2, roundHalfEven]

/-- Claim C8: numeric coercion is idempotent — re-coercing an
already-coerced column returns the same cells, missing staying
missing — and a non-numeric column such as SIM/NAO coerces to missing
in every cell; the coercion is a total function, so it cannot raise. -/
theorem coercion_idempotent :
    (∀ col : List Cell,
      (col.map toNumericCoerce).map toNumericCoerce = col.map toNumericCoerce) ∧
    [Cell.str "SIM", Cell.str "NAO"].map toNumericCoerce = [Cell.missing, Cell.missing] := by
  refine ⟨fun col => ?_, by decide⟩
  induction col with
  | nil => rfl
  | cons c cs ih =>
    simp only [List.map_cons, ih]
    congr 1
    cases c with
    | num q => rfl
    | missing => rfl
    | str s => cases hp : parseNumber s <;> simp [toNumericCoerce, hp]

/-- Claim C4: in the outlier classification of the air-humidity column,
a present value v is labelled Outlier exactly when it lies below
Q1 - 1.5 IQR or above Q3 + 1.5 IQR, with Q1 and Q3 the quartiles of the
same column and IQR = Q3 - Q1; every other value is labelled Normal. -/
theorem outlier_iqr_rule (col : List (Option ℚ)) (i : ℕ) (v q1 q3 : ℚ)
    (hv : col.get? i = some (some v))
    (h1 : pquantile col (1 / 4) = some q1) (h3 : pquantile col (3 / 4) = some q3) :
    (((classifyOutliers col).get? i = some "Outlier") ↔
        (v < q1 - 3 / 2 * (q3 - q1) ∨ v > q3 + 3 / 2 * (q3 - q1))) ∧
    (((classifyOutliers col).get? i = some "Normal") ↔
        ¬(v < q1 - 3 / 2 * (q3 - q1) ∨ v > q3 + 3 / 2 * (q3 - q1))) := by
  rw [List.get?_eq_getElem?] at hv
  unfold classifyOutliers
  rw [h1, h3]
  rw [List.get?_eq_getElem?, List.getElem?_map, hv]
  by_cases hc : v < q1 - 3 / 2 * (q3 - q1) ∨ v > q3 + 3 / 2 * (q3 - q1)
  · constructor <;> simp [hc]
  · constructor <;> simp [hc]

/-- Witness for C4: in the column [10, 12, 11, 13, 100] the quartiles
are 11 and 13 and the point 100 is classified Outlier, matching the
rule. -/
theorem outlier_iqr_rule_witness :
    (((classifyOutliers colC4W).get? 4 = some "Outlier") ↔
        ((100 : ℚ) < 11 - 3 / 2 * (13 - 11) ∨ (100 : ℚ) > 13 + 3 / 2 * (13 - 11))) ∧
    (((classifyOutliers colC4W).get? 4 = some "Normal") ↔
        ¬((100 : ℚ) < 11 - 3 / 2 * (13 - 11) ∨ (100 : ℚ) > 13 + 3 / 2 * (13 - 11))) :=
  outlier_iqr_rule colC4W 4 100 11 13 rfl q1_colC4W q3_colC4W

/-- Claim C5: when a required column is absent from the loaded CSV, the
figure-generation script prints exactly one error line naming a missing
required column and stops: no renderer is invoked and no image file is
written. -/
theorem missing_column_aborts (t : Table) (body : RendererBody) (c : String)
    (hd : "Data" ∈ colNames t) (hh : "Hora" ∈ colNames t)
    (hc : c ∈ required_columns) (habs : c ∉ colNames t) :
    ∃ mc, mc ∈ required_columns ∧ mc ∉ colNames t ∧
      (runGerarFiguras t body).messages = [colErrMsg mc] ∧
      (runGerarFiguras t body).files = [] ∧
      (runGerarFiguras t body).invoked = [] := by
  have hne : firstMissing (colNames t) ≠ none := by
    rw [firstMissing, Ne, List.find?_eq_none]
    push_neg
    refine ⟨c, hc, ?_⟩
    simpa using habs
  obtain ⟨c', hfm⟩ := Option.ne_none_iff_exists'.mp hne
  have hfind : (required_columns.find? (fun x => !((colNames t).contains x))) = some c' := by
    rw [← firstMissing, hfm]
  have hmem : c' ∈ required_columns := List.mem_of_find?_eq_some hfind
  have hp := List.find?_some hfind
  have habs' : c' ∉ colNames t := by simpa using hp
  have hrun : runGerarFiguras t body = ⟨[colErrMsg c'], [], []⟩ := by
    simp only [runGerarFiguras, if_pos (And.intro hd hh)]
    rw [hfm]
  exact ⟨c', hmem, habs', by rw [hrun], by rw [hrun], by rw [hrun]⟩

/-- Witness for C5: on the table lacking USolo the script prints the
error line for USolo and writes nothing. -/
theorem missing_column_aborts_witness :
    ∃ mc, mc ∈ required_columns ∧ mc ∉ colNames tblNoUSolo ∧
      (runGerarFiguras tblNoUSolo allFailBody).messages = [colErrMsg mc] ∧
      (runGerarFiguras tblNoUSolo allFailBody).files = [] ∧
      (runGerarFiguras tblNoUSolo allFailBody).invoked = [] :=
  missing_column_aborts tblNoUSolo allFailBody "USolo"
    (by decide) (by decide) (by decide) (by decide)

/-- Claim C6: the renderers are best effort — whatever each renderer
body does, all five are invoked in the fixed order, and a raised
exception is only printed with the corresponding error label, never
aborting the rest. -/
theorem renderers_best_effort (t : Table) (body : RendererBody)
    (hd : "Data" ∈ colNames t) (hh : "Hora" ∈ colNames t)
    (hreq : ∀ c ∈ required_columns, c ∈ colNames t) :
    ((runGerarFiguras t body).invoked.map Prod.fst = rendererSeq) ∧
    (∀ r : RendererId, ∀ e, (body r (dadosFor t)).2 = some e →
      (errLabel r ++ e) ∈ (runGerarFiguras t body).messages) := by
  rw [runGerarFiguras_ok t body hd hh hreq]
  constructor
  · show ((rendererSeq.foldl (runRenderer body (dadosFor t))
      ⟨[], [], []⟩).invoked).map Prod.fst = rendererSeq
    rw [foldl_runRenderer_invoked]
    rfl
  · intro r e hre
    show (errLabel r ++ e) ∈ (rendererSeq.foldl (runRenderer body (dadosFor t))
      ⟨[], [], []⟩).messages ++ finalPrints
    have hr : r ∈ rendererSeq := by cases r <;> simp [rendererSeq]
    refine List.mem_append_left _ ?_
    rw [foldl_runRenderer_messages]
    refine List.mem_append_right _ ?_
    exact List.mem_flatten.mpr ⟨[errLabel r ++ e],
      List.mem_map.mpr ⟨r, hr, by simp only [hre]⟩, List.mem_singleton.mpr rfl⟩

/-- Witness for C6: with a body under which only the boxplot renderer
raises, all five renderers are still invoked and the boxplot error is
printed. -/
theorem renderers_best_effort_witness :
    ((runGerarFiguras tblFull boxFailBody).invoked.map Prod.fst = rendererSeq) ∧
    (errLabel .boxplot ++ "falha no boxplot") ∈
      (runGerarFiguras tblFull boxFailBody).messages := by
  have h := renderers_best_effort tblFull boxFailBody (by decide) (by decide) (by decide)
  exact ⟨h.1, h.2 .boxplot "falha no boxplot" (by decide)⟩

/-- Claim C10 (implicit): after the renderer calls the script
unconditionally prints the completion banner and the fixed file list —
for every body the printed output ends with those lines, and under the
all-failing body no file is written while the file list is still
printed. -/
theorem final_prints_unconditional (t : Table) (body : RendererBody)
    (hd : "Data" ∈ colNames t) (hh : "Hora" ∈ colNames t)
    (hreq : ∀ c ∈ required_columns, c ∈ colNames t) :
    (∃ pre, (runGerarFiguras t body).messages = pre ++ finalPrints) ∧
    (runGerarFiguras t allFailBody).files = [] ∧
    (∃ pre, (runGerarFiguras t allFailBody).messages = pre ++ finalPrints) := by
  refine ⟨⟨(rendererSeq.foldl (runRenderer body (dadosFor t)) ⟨[], [], []⟩).messages, ?_⟩,
    ?_, ⟨(rendererSeq.foldl (runRenderer allFailBody (dadosFor t)) ⟨[], [], []⟩).messages, ?_⟩⟩
  · rw [runGerarFiguras_ok t body hd hh hreq]
  · rw [runGerarFiguras_ok t allFailBody hd hh hreq]
    show (rendererSeq.foldl (runRenderer allFailBody (dadosFor t)) ⟨[], [], []⟩).files = []
    rw [foldl_runRenderer_files]
    simp [allFailBody, rendererSeq]
  · rw [runGerarFiguras_ok t allFailBody hd hh hreq]

/-- Witness for C10: on the complete table with the body under which
only the boxplot fails, the printed output ends with the banner and
file list. -/
theorem final_prints_unconditional_witness :
    (∃ pre, (runGerarFiguras tblFull boxFailBody).messages = pre ++ finalPrints) ∧
    (runGerarFiguras tblFull allFailBody).files = [] ∧
    (∃ pre, (runGerarFiguras tblFull allFailBody).messages = pre ++ finalPrints) :=
  final_prints_unconditional tblFull boxFailBody (by decide) (by decide) (by decide)

/-- Counterexample to C3: the figure-generation script performs no
numeric coercion — the table every renderer receives still holds the
unparseable cell SIM in the UmidadeAr column, whereas in the cleaned
view of that same table the cell is missing. -/
theorem gerar_figuras_uncleaned_input :
    (runGerarFiguras exTable allFailBody).invoked =
      rendererSeq.map (fun r => (r, dadosFor exTable)) ∧
    getCell (dadosFor exTable) "UmidadeAr" 0 = some (Cell.str "SIM") ∧
    getCell (cleanTable (dadosFor exTable)) "UmidadeAr" 0 = some Cell.missing := by
  refine ⟨?_, ?_, ?_⟩ <;> decide

/-- Claim C3 as amended: every chart renderer consumes the loaded table
with the derived Data_Hora column; no numeric coercion happens, so
every original cell — parseable or not — reaches the renderers
unchanged. -/
theorem gerar_figuras_renderer_input (t : Table) (body : RendererBody)
    (name : String) (i : ℕ)
    (hd : "Data" ∈ colNames t) (hh : "Hora" ∈ colNames t)
    (hreq : ∀ c ∈ required_columns, c ∈ colNames t)
    (hname : name ≠ "Data_Hora") :
    (runGerarFiguras t body).invoked = rendererSeq.map (fun r => (r, dadosFor t)) ∧
    getCell (dadosFor t) name i = getCell t name i := by
  refine ⟨?_, getCell_dadosFor t name i hname⟩
  rw [runGerarFiguras_ok t body hd hh hreq]
  show (rendererSeq.foldl (runRenderer body (dadosFor t)) ⟨[], [], []⟩).invoked = _
  rw [foldl_runRenderer_invoked]
  simp

/-- Witness for the amended C3: on the complete table the renderers all
receive the loaded table with the timestamp column, and the UmidadeAr
cells are untouched. -/
theorem gerar_figuras_renderer_input_witness :
    (runGerarFiguras tblFull allFailBody).invoked =
      rendererSeq.map (fun r => (r, dadosFor tblFull)) ∧
    getCell (dadosFor tblFull) "UmidadeAr" 0 = getCell tblFull "UmidadeAr" 0 :=
  gerar_figuras_renderer_input tblFull allFailBody "UmidadeAr" 0
    (by decide) (by decide) (by decide) (by decide)

end SensorArduino
